import Mathlib

/-
A shallow embedding of the SQL-generation core of the orator query/schema
grammar layer: the MySQL dialect query grammar, the Postgres dialect query
grammar, and the Postgres dialect schema grammar.

Functions that appear in the three dialect grammar source files are
translated statement by statement. Helpers that live in the shared base
grammar (which is not part of the shown sources) are modelled from the
specification and carry a doc comment starting with `Modelled from the
spec:`.
-/

namespace Orator

/-- Scalar values carried by a statement: the scalars that appear as bind
values in the claims (integers and strings). -/
inductive PyValue where
  | int (n : Int) : PyValue
  | str (s : String) : PyValue
deriving DecidableEq

/-- An ordered row mapping, as produced by an insertion-ordered dict:
a list of column-name/value pairs.  `keys()` is the list of first
components, `values()` the list of second components, in order. -/
abbrev Row := List (String × PyValue)

/-- The set of characters stripped by str.strip() with no argument. -/
def pyIsSpace (c : Char) : Bool :=
  (c == ' ') || (c == '\t') || (c == '\n') || (c == '\r') || (c == '\x0b') || (c == '\x0c')

/-- Remove trailing whitespace characters from a character list. -/
def stripTrailingChars : List Char → List Char
  | [] => []
  | c :: cs =>
    let r := stripTrailingChars cs
    if r.isEmpty && pyIsSpace c then [] else c :: r

/-- str.strip(): remove leading and trailing whitespace. -/
def pyStrip (s : String) : String :=
  String.mk (stripTrailingChars (s.data.dropWhile pyIsSpace))

/-- str.rstrip(): remove trailing whitespace only. -/
def pyRstrip (s : String) : String :=
  String.mk (stripTrailingChars s.data)

/-- True when the string does not start with a whitespace character. -/
def noLeadingSpace (s : String) : Bool :=
  match s.data.head? with
  | some c => !(pyIsSpace c)
  | none => true

/-- True when the string does not end with a whitespace character. -/
def noTrailingSpace (s : String) : Bool :=
  match s.data.getLast? with
  | some c => !(pyIsSpace c)
  | none => true

/-- The backtick character, the MySQL-family identifier quote. -/
def backquote : Char := '\u0060'

/-- str.replace(qc, qc+qc): double every occurrence of the quote
character.  This is the single-character instance of str.replace used by
the dialect _wrap_value implementations. -/
def escapeQuoteChar (qc : Char) : List Char → List Char
  | [] => []
  | c :: cs => if c = qc then qc :: qc :: escapeQuoteChar qc cs else c :: escapeQuoteChar qc cs

/-- Both shown dialects use the same parameter marker (`marker = "%s"`). -/
def marker : String := "%s"

/-- A basic where-clause node: boolean connector (AND/OR), column,
operator, and the bound value (spec section 3). -/
structure Where where
  boolean : String
  column : String
  operator : String
  value : PyValue
deriving DecidableEq

/-- One ON-constraint of a join: boolean connector plus
column/operator/column (spec section 3). -/
structure JoinClause where
  boolean : String
  first : String
  operator : String
  second : String
deriving DecidableEq

/-- A join: join type, joined table, and its ordered ON-constraints. -/
structure Join where
  type : String
  table : String
  clauses : List JoinClause
deriving DecidableEq

/-- One ORDER BY entry: column and direction (spec section 3). -/
structure Order where
  column : String
  direction : String
deriving DecidableEq

/-- The abstract query statement, restricted to the clause fields the
shown dialect-grammar code reads: `from__`, `joins`, `wheres` (an Option,
`none` standing for a non-list value so the isinstance check in
compile_delete is meaningful), `orders` and `limit_`. -/
structure Query where
  from__ : String
  joins : List Join
  wheres : Option (List Where)
  orders : List Order
  limit_ : Option Int
deriving DecidableEq

/-- The polymorphic lock value accepted by _compile_lock: a raw string, a
boolean, or (outside the documented contract) any other scalar such as an
integer. -/
inductive LockValue where
  | str (s : String) : LockValue
  | bool (b : Bool) : LockValue
  | int (n : Int) : LockValue
deriving DecidableEq

/-- Python truthiness for the lock values in scope. -/
def pyTruthy : LockValue → Bool
  | .str s => !(s == "")
  | .bool b => b
  | .int n => !(n == 0)

/-- str.startswith, on the underlying character lists. -/
def strStartsWith (s p : String) : Bool :=
  p.data.isPrefixOf s.data

/-- Modelled from the spec: the base grammar strips the leading boolean
connector ("AND " or "OR ") of a folded where fragment (section 4.7). -/
def removeLeadingBoolean (s : String) : String :=
  if strStartsWith s "AND " then String.mk (s.data.drop 4)
  else if strStartsWith s "OR " then String.mk (s.data.drop 3)
  else s

/-- Modelled from the spec: rendering of one basic where node as
`<CONNECTOR> <wrapped column> <operator> <marker>` (sections 3, 4.3 and
the section 8 end-to-end select example).  `wv` is the dialect's
identifier wrapper. -/
def whereSql (wv : String → String) (w : Where) : String :=
  w.boolean ++ " " ++ wv w.column ++ " " ++ w.operator ++ " " ++ marker

/-- Modelled from the spec: the base grammar _compile_wheres — render each
where node, join the fragments with single spaces, strip the leading
boolean connector and put "WHERE " in front; an absent or empty where list
renders the empty string (sections 4.1 and 8). -/
def compile_wheres (wv : String → String) (q : Query) : String :=
  match q.wheres with
  | none => ""
  | some [] => ""
  | some ws => "WHERE " ++ removeLeadingBoolean (String.intercalate " " (ws.map (whereSql wv)))

/-- Modelled from the spec: rendering of one join ON-constraint as
`<CONNECTOR> <wrapped first> <operator> <wrapped second>` (section 3).
This is the base grammar _compile_join_constraints used by the Postgres
update path. -/
def compile_join_constraints (wv : String → String) (c : JoinClause) : String :=
  c.boolean ++ " " ++ wv c.first ++ " " ++ c.operator ++ " " ++ wv c.second

/-- Modelled from the spec: the base grammar _compile_joins — each join
renders as `<TYPE> JOIN <wrapped table> ON <constraints>` with the leading
boolean connector of the first constraint stripped, and the joins are
joined with single spaces (sections 3 and 4.6). -/
def compile_joins (wv : String → String) (joins : List Join) : String :=
  String.intercalate " "
    (joins.map (fun j =>
      j.type ++ " JOIN " ++ wv j.table ++ " ON " ++
        removeLeadingBoolean (String.intercalate " " (j.clauses.map (compile_join_constraints wv)))))

/-- Modelled from the spec: the base grammar _compile_orders — `ORDER BY`
followed by the comma-joined `<wrapped column> <direction>` entries
(section 3). -/
def compile_orders (wv : String → String) (orders : List Order) : String :=
  "ORDER BY " ++ String.intercalate ", " (orders.map (fun o => wv o.column ++ " " ++ o.direction))

/-- Modelled from the spec: the base grammar _compile_limit —
`LIMIT <n>`. -/
def compile_limit (n : Int) : String :=
  "LIMIT " ++ toString n

/-- Modelled from the spec: the base grammar columnize — wrap every column
name and join with ", " (sections 4.2 and 4.5). -/
def columnize (wv : String → String) (columns : List String) : String :=
  String.intercalate ", " (columns.map wv)

/-- Modelled from the spec: the base grammar parameterize — emit one
marker per value joined with ", ", and record the values, in call order,
into the ordered parameter list returned alongside the text (section
4.3). -/
def parameterize (values : List PyValue) : String × List PyValue :=
  (String.intercalate ", " (values.map (fun _ => marker)), values)

/-- The result of the MySQL compile_upsert body: the Python function can
leave through the early `return columns, parameters` (a pair), through the
final `return "INSERT INTO ..."` (a statement string), fail with
IndexError on an empty row list, fail with TypeError on the malformed
format in the dead code, or fall off the end returning None. -/
inductive UpsertRet where
  | pair (columns parameters : String) : UpsertRet
  | statement (s : String) : UpsertRet
  | indexError : UpsertRet
  | typeError : UpsertRet
  | noneReturn : UpsertRet
deriving DecidableEq

namespace MySQLQueryGrammar

/-- MySQLQueryGrammar._wrap_value (source lines 186-199): `*` is returned
unquoted; any other identifier has each embedded backtick doubled and is
enclosed in backticks. -/
def wrap_value (value : String) : String :=
  if value = "*" then value
  else String.mk (backquote :: (escapeQuoteChar backquote value.data ++ [backquote]))

/-- Modelled from the spec: the base grammar wrap for a plain identifier
delegates to the dialect _wrap_value (section 4.2). -/
def wrap (value : String) : String :=
  wrap_value value

/-- Modelled from the spec: wrap_table wraps the (prefix-free) table name
with the dialect wrapper (section 4.2; the table prefix is empty). -/
def wrap_table (table : String) : String :=
  wrap table

/-- MySQLQueryGrammar._compile_lock (source lines 59-78): a string value
is returned verbatim; the identity comparisons `value is True` /
`value is False` select the two lock clauses; any other value falls
through and the function returns None. -/
def _compile_lock (query : Query) (value : LockValue) : Option String :=
  match value with
  | .str s => some s
  | .bool true => some "FOR UPDATE"
  | .bool false => some "LOCK IN SHARE MODE"
  | _ => none

/-- MySQLQueryGrammar.compile_delete, lines 164-167: the wheres fragment
is compiled only when query.wheres is a list, otherwise it is "". -/
def delete_wheres (q : Query) : String :=
  match q.wheres with
  | some _ => compile_wheres wrap q
  | none => ""

/-- MySQLQueryGrammar.compile_delete, lines 176-183 (also the tail of
compile_update): append the orders fragment, then the limit fragment,
when each is truthy. -/
def append_orders_limit (q : Query) (sql : String) : String :=
  let sql1 :=
    match q.orders with
    | [] => sql
    | _ :: _ => sql ++ " " ++ compile_orders wrap q.orders
  match q.limit_ with
  | some n => if n = 0 then sql1 else sql1 ++ " " ++ compile_limit n
  | none => sql1

/-- MySQLQueryGrammar.compile_delete (source lines 152-184). -/
def compile_delete (q : Query) : String :=
  let table := wrap_table q.from__
  let wheres := delete_wheres q
  let sql :=
    match q.joins with
    | [] => "DELETE FROM " ++ table ++ " " ++ wheres
    | _ :: _ =>
      let joins := " " ++ compile_joins wrap q.joins
      "DELETE " ++ table ++ " FROM " ++ table ++ joins ++ " " ++ wheres
  append_orders_limit q (pyStrip sql)

/-- MySQLQueryGrammar.compile_upsert (source lines 80-127), encoded with
an early-return monad: every Python `return e` is `throw e`, so the
statements that follow the first `return columns, parameters` (source
lines 117-127) are present below it but can never run.  If they did run,
the format `"%s = %s" % (col )` at line 118 would raise TypeError before
the final INSERT statement is built. -/
def compile_upsertBody (query : Query) (values : List Row)
    (conflict_keys conflict_columns : List String) : Except UpsertRet Unit := do
  let table := wrap_table query.from__
  match values with
  | [] => throw UpsertRet.indexError
  | row0 :: _ => do
    let columns := columnize wrap (row0.map Prod.fst)
    let parameters := (parameterize (row0.map Prod.snd)).1
    let value := List.replicate values.length ("(" ++ parameters ++ ")")
    let parameters2 := String.intercalate ", " value
    throw (UpsertRet.pair columns parameters2)
    throw UpsertRet.typeError
    let conflict_update_join := String.intercalate ", " conflict_columns
    throw (UpsertRet.statement
      ("INSERT INTO " ++ table ++ " (" ++ columns ++ ") VALUES " ++ parameters2 ++
        " ON DUPLICATE KEY UPDATE " ++ conflict_update_join))

/-- The value MySQLQueryGrammar.compile_upsert actually produces: the
first exit taken by the body, or None if the body fell off the end. -/
def compile_upsert (query : Query) (values : List Row)
    (conflict_keys conflict_columns : List String) : UpsertRet :=
  match compile_upsertBody query values conflict_keys conflict_columns with
  | .error r => r
  | .ok _ => UpsertRet.noneReturn

end MySQLQueryGrammar

namespace PostgresQueryGrammar

/-- Modelled from the spec: the Postgres-family _wrap_value inherited from
the base grammar — `*` unquoted, otherwise each embedded double-quote is
doubled and the identifier is enclosed in double-quotes (section 4.2). -/
def wrap_value (value : String) : String :=
  if value = "*" then value
  else String.mk ('"' :: (escapeQuoteChar '"' value.data ++ ['"']))

/-- Modelled from the spec: the base grammar wrap for a plain identifier
delegates to the dialect _wrap_value (section 4.2). -/
def wrap (value : String) : String :=
  wrap_value value

/-- Modelled from the spec: wrap_table wraps the (prefix-free) table name
with the dialect wrapper (section 4.2; the table prefix is empty). -/
def wrap_table (table : String) : String :=
  wrap table

/-- PostgresQueryGrammar._compile_lock (source lines 30-49): a string is
returned verbatim; any other value renders "FOR UPDATE" when truthy and
"FOR SHARE" otherwise. -/
def _compile_lock (query : Query) (value : LockValue) : String :=
  match value with
  | .str s => s
  | v => if pyTruthy v then "FOR UPDATE" else "FOR SHARE"

/-- PostgresQueryGrammar._compile_update_columns (source lines 74-89):
`<wrapped key> = <marker>` per entry, comma-joined, in dict order. -/
def _compile_update_columns (values : List (String × PyValue)) : String :=
  String.intercalate ", " (values.map (fun kv => wrap kv.1 ++ " = " ++ marker))

/-- PostgresQueryGrammar._compile_update_from (source lines 91-112). -/
def _compile_update_from (q : Query) : String :=
  match q.joins with
  | [] => ""
  | js =>
    let froms := js.map (fun j => wrap_table j.table)
    if froms.isEmpty then "" else " FROM " ++ String.intercalate ", " froms

/-- PostgresQueryGrammar._compile_update_join_wheres (source lines
136-152): every clause of every join, in order, rendered as a join
constraint and joined with single spaces. -/
def _compile_update_join_wheres (q : Query) : String :=
  String.intercalate " " ((q.joins.map (fun j => j.clauses.map (compile_join_constraints wrap))).flatten)

/-- PostgresQueryGrammar._compile_update_wheres (source lines 114-134). -/
def _compile_update_wheres (q : Query) : String :=
  let base_where := compile_wheres wrap q
  match q.joins with
  | [] => base_where
  | _ :: _ =>
    let join_where := _compile_update_join_wheres q
    if pyStrip base_where = "" then "WHERE " ++ removeLeadingBoolean join_where
    else base_where ++ " " ++ join_where

/-- PostgresQueryGrammar.compile_update (source lines 51-72). -/
def compile_update (q : Query) (values : List (String × PyValue)) : String :=
  let table := wrap_table q.from__
  let columns := _compile_update_columns values
  let from_ := _compile_update_from q
  let where_ := _compile_update_wheres q
  pyStrip ("UPDATE " ++ table ++ " SET " ++ columns ++ from_ ++ " " ++ where_)

/-- PostgresQueryGrammar.compile_upsert (source lines 178-227), paired
with the ordered parameter list recorded by parameterize (the latter
modelled from the spec, section 4.3).  An empty row list makes the Python
`values[0]` raise IndexError, modelled as `none`. -/
def compile_upsert (q : Query) (values : List Row)
    (conflict_keys conflict_columns : List String) : Option (String × List PyValue) :=
  let table := wrap_table q.from__
  match values with
  | [] => none
  | row0 :: _ =>
    let columns := columnize wrap (row0.map Prod.fst)
    let pr := parameterize (row0.map Prod.snd)
    let value := List.replicate values.length ("(" ++ pr.1 ++ ")")
    let parameters := String.intercalate ", " value
    let conflict_key_join := String.intercalate ", " conflict_keys
    let conflict_update_statements := conflict_columns.map (fun col => col ++ " = EXCLUDED." ++ col)
    let conflict_update_join := String.intercalate ", " conflict_update_statements
    some ("INSERT INTO " ++ table ++ " (" ++ columns ++ ") VALUES " ++ parameters ++
      " ON CONFLICT (" ++ conflict_key_join ++ ") DO UPDATE SET " ++ conflict_update_join,
      pr.2)

end PostgresQueryGrammar

/-- The column type tags used by the Postgres schema grammar claims. -/
inductive ColumnType where
  | big_integer | integer | medium_integer | small_integer | tiny_integer
  | char | string | text | boolean | enum | json | date
deriving DecidableEq

/-- A column definition: name, type tag and the attributes the modelled
modifiers read (spec section 3). -/
structure Column where
  name : String
  type : ColumnType
  nullable : Bool
  default : Option PyValue
  auto_increment : Bool
deriving DecidableEq

/-- A schema blueprint, reduced to the table name. -/
structure Blueprint where
  table : String
deriving DecidableEq

namespace PostgresSchemaGrammar

/-- Modelled from the spec: the Postgres schema grammar inherits the same
double-quote identifier wrapping (section 4.2). -/
def wrap (value : String) : String :=
  PostgresQueryGrammar.wrap value

/-- Modelled from the spec: wrap_table with an empty table prefix. -/
def wrap_table (table : String) : String :=
  wrap table

/-- PostgresSchemaGrammar.compile_upsert (source lines 23-72): textually
the same routine as the Postgres query grammar's compile_upsert. -/
def compile_upsert (q : Query) (values : List Row)
    (conflict_keys conflict_columns : List String) : Option (String × List PyValue) :=
  let table := wrap_table q.from__
  match values with
  | [] => none
  | row0 :: _ =>
    let columns := columnize wrap (row0.map Prod.fst)
    let pr := parameterize (row0.map Prod.snd)
    let value := List.replicate values.length ("(" ++ pr.1 ++ ")")
    let parameters := String.intercalate ", " value
    let conflict_key_join := String.intercalate ", " conflict_keys
    let conflict_update_statements := conflict_columns.map (fun col => col ++ " = EXCLUDED." ++ col)
    let conflict_update_join := String.intercalate ", " conflict_update_statements
    some ("INSERT INTO " ++ table ++ " (" ++ columns ++ ") VALUES " ++ parameters ++
      " ON CONFLICT (" ++ conflict_key_join ++ ") DO UPDATE SET " ++ conflict_update_join,
      pr.2)

/-- PostgresSchemaGrammar._modifiers (source line 11): the fixed declared
modifier order. -/
def _modifiers : List String := ["increment", "nullable", "default"]

/-- PostgresSchemaGrammar._serials (source lines 13-19). -/
def _serials : List ColumnType :=
  [ColumnType.big_integer, ColumnType.integer, ColumnType.medium_integer,
   ColumnType.small_integer, ColumnType.tiny_integer]

/-- PostgresSchemaGrammar._type_integer (source lines 216-217). -/
def _type_integer (column : Column) : String :=
  if column.auto_increment then "SERIAL" else "INTEGER"

/-- Modelled from the spec: the base schema grammar renders a DEFAULT
value — quoted for strings, bare for numbers (section 4.8). -/
def _get_default_value : PyValue → String
  | .int n => toString n
  | .str s => "'" ++ s ++ "'"

/-- PostgresSchemaGrammar._modify_nullable (source lines 272-276). -/
def _modify_nullable (blueprint : Blueprint) (column : Column) : String :=
  if column.nullable then " NULL" else " NOT NULL"

/-- PostgresSchemaGrammar._modify_default (source lines 278-282). -/
def _modify_default (blueprint : Blueprint) (column : Column) : String :=
  match column.default with
  | some v => " DEFAULT " ++ _get_default_value v
  | none => ""

/-- PostgresSchemaGrammar._modify_increment (source lines 284-288). -/
def _modify_increment (blueprint : Blueprint) (column : Column) : String :=
  if column.type ∈ _serials ∧ column.auto_increment = true then " PRIMARY KEY" else ""

/-- Modelled from the spec: the base schema grammar dispatches each
modifier name in _modifiers to the matching _modify_ renderer (sections
4.8 and 9). -/
def apply_modifier (name : String) (blueprint : Blueprint) (column : Column) : String :=
  if name = "increment" then _modify_increment blueprint column
  else if name = "nullable" then _modify_nullable blueprint column
  else if name = "default" then _modify_default blueprint column
  else ""

/-- Modelled from the spec: the base schema grammar appends the modifier
fragments to the base type text in the fixed declared order of
_modifiers (section 4.8). -/
def add_modifiers (sql : String) (blueprint : Blueprint) (column : Column) : String :=
  _modifiers.foldl (fun acc m => acc ++ apply_modifier m blueprint column) sql

end PostgresSchemaGrammar


/-- The head of a dropWhile result never satisfies the dropped predicate. -/
theorem dropWhile_head_not (p : Char → Bool) (l : List Char) {c : Char}
    (h : (l.dropWhile p).head? = some c) : p c = false := by
  induction l with
  | nil => simp [List.dropWhile] at h
  | cons a as ih =>
    rw [List.dropWhile_cons] at h
    by_cases hp : p a
    · rw [if_pos hp] at h
      exact ih h
    · rw [if_neg hp] at h
      simp only [List.head?_cons, Option.some.injEq] at h
      rw [← h]
      exact Bool.of_not_eq_true hp

/-- stripTrailingChars only removes characters, so a nonempty result keeps
the original head. -/
theorem stripTrailing_head (l : List Char) {c : Char}
    (h : (stripTrailingChars l).head? = some c) : l.head? = some c := by
  cases l with
  | nil => simp [stripTrailingChars] at h
  | cons a as =>
    simp only [stripTrailingChars] at h
    split at h
    · simp at h
    · simp only [List.head?_cons, Option.some.injEq] at h
      simp [h]

/-- The last character surviving stripTrailingChars is not whitespace. -/
theorem stripTrailing_getLast_not (l : List Char) {c : Char}
    (h : (stripTrailingChars l).getLast? = some c) : pyIsSpace c = false := by
  induction l with
  | nil => simp [stripTrailingChars] at h
  | cons a as ih =>
    simp only [stripTrailingChars] at h
    split at h
    · simp at h
    · rename_i hcond
      cases hr : stripTrailingChars as with
      | nil =>
        rw [hr] at h
        simp only [List.getLast?_singleton, Option.some.injEq] at h
        rw [hr] at hcond
        simp only [List.isEmpty_nil, Bool.true_and] at hcond
        rw [← h]
        exact Bool.of_not_eq_true hcond
      | cons b bs =>
        rw [hr] at h
        rw [List.getLast?_cons_cons] at h
        apply ih
        rw [hr]
        exact h

/-- A stripped string does not begin with whitespace. -/
theorem noLeadingSpace_pyStrip (s : String) : noLeadingSpace (pyStrip s) = true := by
  unfold noLeadingSpace pyStrip
  cases h : (stripTrailingChars (s.data.dropWhile pyIsSpace)).head? with
  | none => simp [h]
  | some c =>
    have h1 := stripTrailing_head _ h
    have h2 := dropWhile_head_not pyIsSpace _ h1
    simp [h, h2]

/-- A stripped string does not end with whitespace. -/
theorem noTrailingSpace_pyStrip (s : String) : noTrailingSpace (pyStrip s) = true := by
  unfold noTrailingSpace pyStrip
  cases h : (stripTrailingChars (s.data.dropWhile pyIsSpace)).getLast? with
  | none => simp [h]
  | some c =>
    have h2 := stripTrailing_getLast_not _ h
    simp [h, h2]

/-- Doubling the quote character doubles its count. -/
theorem escapeQuoteChar_count (qc : Char) (l : List Char) :
    (escapeQuoteChar qc l).count qc = 2 * l.count qc := by
  induction l with
  | nil => simp [escapeQuoteChar]
  | cons c cs ih =>
    simp only [escapeQuoteChar]
    by_cases h : c = qc
    · rw [if_pos h, h]
      simp [List.count_cons, ih]
      omega
    · rw [if_neg h]
      simp [List.count_cons, h, ih]

/-- If the quote character occurs, its doubled form occurs as an infix of
the escaped list. -/
theorem escapeQuoteChar_infix (qc : Char) (l : List Char) (h : qc ∈ l) :
    [qc, qc] <:+: escapeQuoteChar qc l := by
  induction l with
  | nil => cases h
  | cons c cs ih =>
    simp only [escapeQuoteChar]
    by_cases hc : c = qc
    · rw [if_pos hc]
      exact ⟨[], escapeQuoteChar qc cs, by simp⟩
    · rw [if_neg hc]
      have hmem : qc ∈ cs := by
        rcases List.mem_cons.mp h with h1 | h2
        · exact absurd h1.symm hc
        · exact h2
      obtain ⟨a, b, hab⟩ := ih hmem
      exact ⟨c :: a, b, by simp [← hab]⟩

/-- Claim C4: for every query, both dialects' _compile_lock return a
string lock value unchanged; MySQL renders True as "FOR UPDATE" and False
as "LOCK IN SHARE MODE"; Postgres renders True as "FOR UPDATE" and False
as "FOR SHARE". -/
theorem lock_rendering_spec (q : Query) (s : String) :
    MySQLQueryGrammar._compile_lock q (LockValue.str s) = some s
  ∧ PostgresQueryGrammar._compile_lock q (LockValue.str s) = s
  ∧ MySQLQueryGrammar._compile_lock q (LockValue.bool true) = some "FOR UPDATE"
  ∧ MySQLQueryGrammar._compile_lock q (LockValue.bool false) = some "LOCK IN SHARE MODE"
  ∧ PostgresQueryGrammar._compile_lock q (LockValue.bool true) = "FOR UPDATE"
  ∧ PostgresQueryGrammar._compile_lock q (LockValue.bool false) = "FOR SHARE" :=
  ⟨rfl, rfl, rfl, rfl, rfl, rfl⟩

/-- Claim C10: on a lock value that is neither a string nor a boolean
(an integer, say), MySQL's identity comparisons both fail and the
function returns None, while Postgres falls back to truthiness: truthy
renders "FOR UPDATE" and falsy renders "FOR SHARE"; the dialects diverge
on such values. -/
theorem lock_non_boolean_divergence (q : Query) (n : Int) :
    MySQLQueryGrammar._compile_lock q (LockValue.int n) = none
  ∧ PostgresQueryGrammar._compile_lock q (LockValue.int n) =
      (if n = 0 then "FOR SHARE" else "FOR UPDATE") := by
  refine ⟨rfl, ?_⟩
  by_cases h : n = 0
  · simp [PostgresQueryGrammar._compile_lock, pyTruthy, h]
  · simp [PostgresQueryGrammar._compile_lock, pyTruthy, h]

/-- Claim C5: MySQL _wrap_value leaves the literal identifier `*`
unquoted; every other identifier is returned with each embedded backtick
doubled and the whole enclosed in backticks, so an identifier containing
a backtick yields output containing the doubled character. -/
theorem mysql_wrap_value_spec (s : String) (h : s ≠ "*") :
    MySQLQueryGrammar.wrap_value "*" = "*"
  ∧ (MySQLQueryGrammar.wrap_value s).data =
      backquote :: (escapeQuoteChar backquote s.data ++ [backquote])
  ∧ (MySQLQueryGrammar.wrap_value s).data.count backquote = 2 * s.data.count backquote + 2
  ∧ (backquote ∈ s.data →
      [backquote, backquote] <:+: (MySQLQueryGrammar.wrap_value s).data) := by
  have hdata : (MySQLQueryGrammar.wrap_value s).data =
      backquote :: (escapeQuoteChar backquote s.data ++ [backquote]) := by
    unfold MySQLQueryGrammar.wrap_value
    rw [if_neg h]
  refine ⟨rfl, hdata, ?_, ?_⟩
  · rw [hdata]
    simp [List.count_cons, List.count_append, escapeQuoteChar_count]
  · intro hb
    obtain ⟨a, b, hab⟩ := escapeQuoteChar_infix backquote s.data hb
    rw [hdata]
    exact ⟨backquote :: a, b ++ [backquote], by simp [← hab]⟩

/-- Witness for C5 at the concrete identifier a-backtick-b. -/
theorem mysql_wrap_value_spec_witness :
    ("a`b" : String) ≠ "*" ∧
    (MySQLQueryGrammar.wrap_value "*" = "*"
      ∧ (MySQLQueryGrammar.wrap_value "a`b").data =
          backquote :: (escapeQuoteChar backquote ("a`b" : String).data ++ [backquote])
      ∧ (MySQLQueryGrammar.wrap_value "a`b").data.count backquote =
          2 * ("a`b" : String).data.count backquote + 2
      ∧ (backquote ∈ ("a`b" : String).data →
          [backquote, backquote] <:+: (MySQLQueryGrammar.wrap_value "a`b").data)) :=
  ⟨by decide, mysql_wrap_value_spec "a`b" (by decide)⟩

/-- Claim C2: MySQL compile_upsert always leaves through the early
`return columns, parameters` — the wrapped column names of row 0 and the
comma-joined repeated placeholder groups — and never reaches the
statement-building code after that return, so it never produces the
INSERT ... ON DUPLICATE KEY UPDATE string. -/
theorem mysql_upsert_early_return (q : Query) (values : List Row) (ck cc : List String) :
    (∀ s, MySQLQueryGrammar.compile_upsert q values ck cc ≠ UpsertRet.statement s)
  ∧ (∀ row0 rest, values = row0 :: rest →
      MySQLQueryGrammar.compile_upsert q values ck cc =
        UpsertRet.pair (columnize MySQLQueryGrammar.wrap (row0.map Prod.fst))
          (String.intercalate ", "
            (List.replicate values.length
              ("(" ++ (parameterize (row0.map Prod.snd)).1 ++ ")")))) := by
  constructor
  · intro s
    cases values with
    | nil => exact fun hc => UpsertRet.noConfusion hc
    | cons r rs => exact fun hc => UpsertRet.noConfusion hc
  · intro row0 rest hv
    subst hv
    rfl

/-- Witness for C2 on a one-row upsert. -/
theorem mysql_upsert_early_return_witness :
    MySQLQueryGrammar.compile_upsert ⟨"t", [], some [], [], none⟩
        [[("a", PyValue.int 1)]] [] [] =
      UpsertRet.pair "`a`" "(%s)" :=
  (mysql_upsert_early_return ⟨"t", [], some [], [], none⟩
    [[("a", PyValue.int 1)]] [] []).2 [("a", PyValue.int 1)] [] rfl

/-- Claim C1 (failing input): on a two-row upsert over one column, both
Postgres compile_upsert implementations emit two placeholder groups in
the VALUES clause but record only row 0's single value in the parameter
list, so the recorded list has 1 entry where the claim requires
N * len(columns) = 2. -/
theorem upsert_binds_only_first_row :
    PostgresQueryGrammar.compile_upsert ⟨"t", [], some [], [], none⟩
        [[("a", PyValue.int 1)], [("a", PyValue.int 2)]] ["a"] ["a"] =
      some ("INSERT INTO \"t\" (\"a\") VALUES (%s), (%s) ON CONFLICT (a) DO UPDATE SET a = EXCLUDED.a",
        [PyValue.int 1])
  ∧ PostgresSchemaGrammar.compile_upsert ⟨"t", [], some [], [], none⟩
        [[("a", PyValue.int 1)], [("a", PyValue.int 2)]] ["a"] ["a"] =
      some ("INSERT INTO \"t\" (\"a\") VALUES (%s), (%s) ON CONFLICT (a) DO UPDATE SET a = EXCLUDED.a",
        [PyValue.int 1])
  ∧ ¬ ((PostgresQueryGrammar.compile_upsert ⟨"t", [], some [], [], none⟩
        [[("a", PyValue.int 1)], [("a", PyValue.int 2)]] ["a"] ["a"]).map
          (fun r => r.2.length) = some (2 * 1)) :=
  ⟨rfl, rfl, by decide⟩

/-- Claim C3 counterexample: on the spec's end-to-end input, the rendered
text does not wrap the conflict-target identifier in the dialect quote
character — the claimed text with a wrapped conflict target is not what
compile_upsert produces. -/
theorem pg_upsert_conflict_target_wrapped_cex :
    (PostgresQueryGrammar.compile_upsert ⟨"table", [], some [], [], none⟩
        [[("id", PyValue.int 1), ("name", PyValue.str "a")]] ["id"] ["name"]).map Prod.fst ≠
      some "INSERT INTO \"table\" (\"id\", \"name\") VALUES (%s, %s) ON CONFLICT (\"id\") DO UPDATE SET name = EXCLUDED.name" := by
  decide

/-- Claim C3 as amended: the same call yields the INSERT text with the
conflict-target identifier joined raw (unwrapped), with row 0's values as
the recorded parameters. -/
theorem pg_upsert_concrete_render :
    PostgresQueryGrammar.compile_upsert ⟨"table", [], some [], [], none⟩
        [[("id", PyValue.int 1), ("name", PyValue.str "a")]] ["id"] ["name"] =
      some ("INSERT INTO \"table\" (\"id\", \"name\") VALUES (%s, %s) ON CONFLICT (id) DO UPDATE SET name = EXCLUDED.name",
        [PyValue.int 1, PyValue.str "a"]) :=
  rfl

/-- Claim C6: MySQL compile_delete renders
`DELETE <table> FROM <table> <joins> <wheres>` when joins are present and
`DELETE FROM <table> <wheres>` otherwise, appends the orders fragment and
then the limit fragment when each is present (truthy), and strips the
whitespace an empty wheres fragment would leave at the edges. -/
theorem mysql_compile_delete_spec (q : Query) :
    (q.joins = [] →
      MySQLQueryGrammar.compile_delete q =
        MySQLQueryGrammar.append_orders_limit q
          (pyStrip ("DELETE FROM " ++ MySQLQueryGrammar.wrap_table q.from__ ++ " " ++
            MySQLQueryGrammar.delete_wheres q)))
  ∧ (q.joins ≠ [] →
      MySQLQueryGrammar.compile_delete q =
        MySQLQueryGrammar.append_orders_limit q
          (pyStrip ("DELETE " ++ MySQLQueryGrammar.wrap_table q.from__ ++ " FROM " ++
            MySQLQueryGrammar.wrap_table q.from__ ++
            (" " ++ compile_joins MySQLQueryGrammar.wrap q.joins) ++ " " ++
            MySQLQueryGrammar.delete_wheres q)))
  ∧ (MySQLQueryGrammar.delete_wheres q = "" → q.orders = [] → q.limit_ = none →
      noLeadingSpace (MySQLQueryGrammar.compile_delete q) = true ∧
      noTrailingSpace (MySQLQueryGrammar.compile_delete q) = true) := by
  obtain ⟨f, js, ws, os, lim⟩ := q
  refine ⟨?_, ?_, ?_⟩
  · intro hj
    subst hj
    rfl
  · intro hj
    cases js with
    | nil => exact absurd rfl hj
    | cons j js2 => rfl
  · intro _ ho hl
    subst ho
    subst hl
    cases js with
    | nil => exact ⟨noLeadingSpace_pyStrip _, noTrailingSpace_pyStrip _⟩
    | cons j js2 => exact ⟨noLeadingSpace_pyStrip _, noTrailingSpace_pyStrip _⟩

/-- Witness for C6: a delete with no joins, no wheres, no orders and no
limit renders trimmed, with no whitespace at either edge. -/
theorem mysql_compile_delete_spec_witness :
    MySQLQueryGrammar.compile_delete ⟨"t", [], some [], [], none⟩ = "DELETE FROM `t`" ∧
    (noLeadingSpace (MySQLQueryGrammar.compile_delete ⟨"t", [], some [], [], none⟩) = true ∧
     noTrailingSpace (MySQLQueryGrammar.compile_delete ⟨"t", [], some [], [], none⟩) = true) :=
  ⟨((mysql_compile_delete_spec ⟨"t", [], some [], [], none⟩).1 rfl).trans (by decide),
   (mysql_compile_delete_spec ⟨"t", [], some [], [], none⟩).2.2 rfl rfl rfl⟩

/-- Claim C7: Postgres compile_update with joins lists each join's table,
in order, in a FROM list after the SET clause, and folds each join's
ON-constraints into the WHERE text; when the statement's own wheres
render blank, the leading boolean connector of the folded join
predicates is stripped behind "WHERE ". -/
theorem pg_compile_update_join_spec (q : Query) (values : List (String × PyValue))
    (hj : q.joins ≠ []) :
    PostgresQueryGrammar.compile_update q values =
      pyStrip ("UPDATE " ++ PostgresQueryGrammar.wrap_table q.from__ ++ " SET " ++
        PostgresQueryGrammar._compile_update_columns values ++
        (" FROM " ++ String.intercalate ", "
          (q.joins.map (fun j => PostgresQueryGrammar.wrap_table j.table))) ++
        " " ++ PostgresQueryGrammar._compile_update_wheres q)
  ∧ (pyStrip (compile_wheres PostgresQueryGrammar.wrap q) = "" →
      PostgresQueryGrammar._compile_update_wheres q =
        "WHERE " ++ removeLeadingBoolean (PostgresQueryGrammar._compile_update_join_wheres q))
  ∧ (pyStrip (compile_wheres PostgresQueryGrammar.wrap q) ≠ "" →
      PostgresQueryGrammar._compile_update_wheres q =
        compile_wheres PostgresQueryGrammar.wrap q ++ " " ++
          PostgresQueryGrammar._compile_update_join_wheres q) := by
  obtain ⟨f, js, ws, os, lim⟩ := q
  cases js with
  | nil => exact absurd rfl hj
  | cons j js2 =>
    refine ⟨rfl, ?_, ?_⟩
    · intro hbw
      simp only [PostgresQueryGrammar._compile_update_wheres]
      rw [if_pos hbw]
    · intro hbw
      simp only [PostgresQueryGrammar._compile_update_wheres]
      rw [if_neg hbw]

set_option maxRecDepth 8192 in
/-- Witness for C7: an update on a one-join statement with empty wheres. -/
theorem pg_compile_update_join_spec_witness :
    PostgresQueryGrammar.compile_update
        ⟨"t", [⟨"INNER", "o", [⟨"AND", "t.id", "=", "o.tid"⟩]⟩], some [], [], none⟩
        [("name", PyValue.str "x")] =
      "UPDATE \"t\" SET \"name\" = %s FROM \"o\" WHERE \"t.id\" = \"o.tid\"" ∧
    PostgresQueryGrammar._compile_update_wheres
        ⟨"t", [⟨"INNER", "o", [⟨"AND", "t.id", "=", "o.tid"⟩]⟩], some [], [], none⟩ =
      "WHERE \"t.id\" = \"o.tid\"" :=
  ⟨((pg_compile_update_join_spec
      ⟨"t", [⟨"INNER", "o", [⟨"AND", "t.id", "=", "o.tid"⟩]⟩], some [], [], none⟩
      [("name", PyValue.str "x")] (by decide)).1).trans (by decide),
   ((pg_compile_update_join_spec
      ⟨"t", [⟨"INNER", "o", [⟨"AND", "t.id", "=", "o.tid"⟩]⟩], some [], [], none⟩
      [("name", PyValue.str "x")] (by decide)).2.1 (by decide)).trans (by decide)⟩

/-- Claim C8: the embedded compile entry points of both dialect grammars
are pure functions of the statement — two calls on the same unmutated
input yield identical text and identical recorded parameter sequences.
The source grammars keep no per-call mutable state (their class
attributes are dialect constants), which the embedding renders as plain
functions, so determinism holds by construction. -/
theorem grammars_deterministic (q : Query) (values : List Row)
    (upd : List (String × PyValue)) (ck cc : List String) (v : LockValue) :
    MySQLQueryGrammar.compile_delete q = MySQLQueryGrammar.compile_delete q
  ∧ MySQLQueryGrammar.compile_upsert q values ck cc = MySQLQueryGrammar.compile_upsert q values ck cc
  ∧ MySQLQueryGrammar._compile_lock q v = MySQLQueryGrammar._compile_lock q v
  ∧ PostgresQueryGrammar.compile_update q upd = PostgresQueryGrammar.compile_update q upd
  ∧ PostgresQueryGrammar._compile_lock q v = PostgresQueryGrammar._compile_lock q v
  ∧ PostgresQueryGrammar.compile_upsert q values ck cc =
      PostgresQueryGrammar.compile_upsert q values ck cc
  ∧ PostgresSchemaGrammar.compile_upsert q values ck cc =
      PostgresSchemaGrammar.compile_upsert q values ck cc :=
  ⟨rfl, rfl, rfl, rfl, rfl, rfl, rfl⟩

/-- Claim C9: the Postgres schema grammar renders the integer type as
SERIAL exactly when the column auto-increments and INTEGER otherwise;
_modify_increment yields " PRIMARY KEY" exactly when the column's type
tag is in the serial list and it auto-increments, and "" otherwise; the
modifiers are applied in the fixed declared order increment, nullable,
default. -/
theorem pg_schema_integer_increment_spec (bp : Blueprint) (c : Column) (sql : String) :
    PostgresSchemaGrammar._type_integer c = (if c.auto_increment then "SERIAL" else "INTEGER")
  ∧ (PostgresSchemaGrammar._modify_increment bp c = " PRIMARY KEY" ↔
      (c.type ∈ PostgresSchemaGrammar._serials ∧ c.auto_increment = true))
  ∧ (¬ (c.type ∈ PostgresSchemaGrammar._serials ∧ c.auto_increment = true) →
      PostgresSchemaGrammar._modify_increment bp c = "")
  ∧ PostgresSchemaGrammar.add_modifiers sql bp c =
      sql ++ PostgresSchemaGrammar._modify_increment bp c ++
        PostgresSchemaGrammar._modify_nullable bp c ++
        PostgresSchemaGrammar._modify_default bp c := by
  refine ⟨rfl, ?_, ?_, rfl⟩
  · unfold PostgresSchemaGrammar._modify_increment
    by_cases h : c.type ∈ PostgresSchemaGrammar._serials ∧ c.auto_increment = true
    · simp [h]
    · rw [if_neg h]
      simp [h]
  · intro h
    unfold PostgresSchemaGrammar._modify_increment
    rw [if_neg h]

/-- Witness for C9: a non-serial column type never gets the inline
PRIMARY KEY modifier. -/
theorem pg_schema_integer_increment_spec_witness :
    (¬ ((⟨"id", ColumnType.string, false, none, true⟩ : Column).type ∈
        PostgresSchemaGrammar._serials ∧
        (⟨"id", ColumnType.string, false, none, true⟩ : Column).auto_increment = true)) ∧
    PostgresSchemaGrammar._modify_increment ⟨"users"⟩ ⟨"id", ColumnType.string, false, none, true⟩ = "" :=
  ⟨by decide,
   (pg_schema_integer_increment_spec ⟨"users"⟩ ⟨"id", ColumnType.string, false, none, true⟩
     "VARCHAR(255)").2.2.1 (by decide)⟩

end Orator
